import Mathlib

/-!
Shallow embedding of the content orchestration core of the
intelligent-content-orchestrator repository: the Express content router
(src/backend/server.js, second module: routes/content.routes.js) and the
content controller (controllers/content.controller.js), together with the
store / cache / search-index state they coordinate.

Conventions of the embedding:
* machine ids are natural numbers; route paths keep their string segments;
* the Prisma store is a list of content rows plus an append-only list of
  version rows; `find?` models `findUnique`, `map` models `update ... where id`;
* external collaborators that can throw (ML analysis dispatch, search index
  client, cache client, notification client) are driven by a `Faults` record
  saying which of them throws during the request; an awaited throw inside the
  controller's `try` block lands in its `catch`, a `.catch(...)` attached to a
  fire-and-forget promise only appends a log line;
* `res.json` / `next(new AppError ...)` become the `Result` type.
-/

/-! ### Express content router (routes/content.routes.js) -/

/-- One segment of an Express route pattern: a literal or a `:name` parameter. -/
inductive Seg where
  | lit (s : String)
  | param (name : String)
deriving Repr, DecidableEq

/-- A registered route: HTTP method, path pattern, and the name of the
controller function passed as handler. -/
structure Route where
  method : String
  pattern : List Seg
  handler : String
deriving Repr, DecidableEq

/-- Does a pattern segment match a concrete path segment?  An Express `:name`
parameter matches any non-empty segment. -/
def segMatches : Seg → String → Bool
  | .lit s, t => s == t
  | .param _, t => !t.isEmpty

/-- Does a whole pattern match a concrete path (segment lists of equal length,
segmentwise match)? -/
def pathMatches : List Seg → List String → Bool
  | [], [] => true
  | s :: ps, t :: ts => segMatches s t && pathMatches ps ts
  | _, _ => false

/-- Express dispatch: the first route registered whose method and pattern match
wins; the result is the name of the controller function invoked. -/
def dispatch (rs : List Route) (m : String) (path : List String) : Option String :=
  (rs.find? (fun r => r.method == m && pathMatches r.pattern path)).map (·.handler)

/-- The content router's routes, in registration order
(routes/content.routes.js).  Paths are relative to the `/api/v1/content`
mount point, so `/` is the empty segment list. -/
def contentRoutes : List Route :=
  [ ⟨"POST",   [],                                             "createContent"⟩,
    ⟨"GET",    [],                                             "getAllContent"⟩,
    ⟨"GET",    [.param "id"],                                  "getContentById"⟩,
    ⟨"PUT",    [.param "id"],                                  "updateContent"⟩,
    ⟨"DELETE", [.param "id"],                                  "deleteContent"⟩,
    ⟨"GET",    [.lit "search"],                                "searchContent"⟩,
    ⟨"POST",   [.param "id", .lit "publish"],                  "publishContent"⟩,
    ⟨"POST",   [.param "id", .lit "archive"],                  "archiveContent"⟩,
    ⟨"GET",    [.param "id", .lit "versions"],                 "getVersionHistory"⟩,
    ⟨"POST",   [.param "id", .lit "restore", .param "versionId"], "restoreVersion"⟩,
    ⟨"POST",   [.param "id", .lit "duplicate"],                "duplicateContent"⟩,
    ⟨"GET",    [.param "id", .lit "analytics"],                "getContentAnalytics"⟩ ]

/-- The functions the content controller actually assigns to `exports`
(controllers/content.controller.js). -/
def contentControllerExports : List String :=
  [ "createContent", "getAllContent", "getContentById", "updateContent",
    "deleteContent", "searchContent", "publishContent", "getVersionHistory",
    "getContentAnalytics" ]

/-! ### Data model (Prisma rows, controllers/content.controller.js) -/

/-- Content lifecycle status. -/
inductive Status where
  | draft
  | published
  | archived
  | deleted
deriving Repr, DecidableEq

/-- Free-form JSON metadata, modelled as a key/value list. -/
abbrev Metadata := List (String × String)

/-- A row of the `content` table, as the controller reads and writes it. -/
structure ContentItem where
  id : Nat
  title : String
  body : String
  authorId : Nat
  categoryId : Option Nat
  status : Status
  version : Nat
  metadata : Metadata
  tags : List String
  createdAt : Nat
  updatedAt : Nat
  publishedAt : Option Nat
  deletedAt : Option Nat
deriving Repr, DecidableEq

/-- A row of the `contentVersion` table: the pre-update snapshot appended by
`updateContent`. -/
structure ContentVersion where
  contentId : Nat
  title : String
  body : String
  version : Nat
  createdBy : Nat
deriving Repr, DecidableEq

/-- The Prisma primary store: content rows, append-only version rows, the tag
dictionary (names in the `tag` table), and the id the next insert receives. -/
structure Store where
  contents : List ContentItem
  versions : List ContentVersion
  tagDict : List String
  nextId : Nat
deriving Repr, DecidableEq

/-- The authenticated request user (`req.user`). -/
structure User where
  id : Nat
  role : String
deriving Repr, DecidableEq

/-- Which external side-effect collaborators throw during this request.  The
primary store itself is not part of this record: the claims under study fix
the store write as succeeding and vary only the downstream effects. -/
structure Faults where
  mlThrows : Bool
  searchThrows : Bool
  cacheThrows : Bool
  notifyThrows : Bool
deriving Repr, DecidableEq

/-- The world a request runs against: primary store, the set of content ids
present in the search index, the live cache keys, and the log. -/
structure World where
  store : Store
  search : List Nat
  cacheKeys : List String
  log : List String
deriving Repr, DecidableEq

/-- The controller's outcome: `res.status(s).json(success, data, message)` on
the happy path, `next(new AppError(message, status))` otherwise. -/
inductive Result where
  | success (status : Nat) (data : Option ContentItem) (message : Option String)
  | failure (message : String) (status : Nat)
deriving Repr, DecidableEq

/-- Did the request succeed (`success: true` sent to the caller)? -/
def Result.isSuccess : Result → Bool
  | .success .. => true
  | .failure .. => false

/-- The HTTP status the caller observes. -/
def Result.statusCode : Result → Nat
  | .success s _ _ => s
  | .failure _ s => s

/-- The lookup `prisma.content.findUnique(where: id)`. -/
def findContent (s : Store) (id : Nat) : Option ContentItem :=
  s.contents.find? (fun c => c.id == id)

/-- Prisma `connectOrCreate` on the tag table: connect each name that already
exists in the dictionary, create (append) each one that does not. -/
def connectOrCreate (dict : List String) (tags : List String) : List String :=
  tags.foldl (fun d tag => if tag ∈ d then d else d ++ [tag]) dict

/-- The call `cacheService.del`: delete an exact key, or every key under a trailing-star
pattern such as `content:list:*`. -/
def cacheDel (keys : List String) (pat : String) : List String :=
  if pat.endsWith "*" then
    keys.filter (fun k => !(pat.dropRight 1).isPrefixOf k)
  else
    keys.filter (fun k => k != pat)

/-- The single-item cache key `content:` followed by the id. -/
def itemKey (id : Nat) : String := "content:" ++ toString id

/-- The expression `Math.ceil(total / limit)` of the controllers' pagination envelopes, read
over exact rationals. -/
def pagesOf (total limit : Nat) : Nat :=
  Nat.ceil ((total : ℚ) / (limit : ℚ))

/-- The `pagination` object of list/search responses. -/
structure Pagination where
  page : Nat
  limit : Nat
  total : Nat
  pages : Nat
deriving Repr, DecidableEq

/-- The request body fields the create/update controllers destructure:
`title, body, categoryId, tags, metadata`.  `none` models a field absent from
the body (`undefined` in the controller). -/
structure ContentInput where
  title : String
  body : String
  categoryId : Option Nat
  tags : Option (List String)
  metadata : Option Metadata
deriving Repr, DecidableEq

/-- Modelled from the spec: the Prisma schema file is not among the sources,
and `prisma.content.create` does not set `version` explicitly, so the value a
new row receives is the schema default.  The spec fixes it: Create inserts a
ContentItem with status `draft` and version 1. -/
def defaultVersion : Nat := 1

/-- The `prisma.content.create` data: status `draft`, the default version,
empty metadata when omitted, and the input tags connect-or-created
(de-duplicated, since the tag relation is a name-keyed set). -/
def createdItem (u : User) (input : ContentInput) (now : Nat) (newId : Nat) : ContentItem :=
  { id := newId
    title := input.title
    body := input.body
    authorId := u.id
    categoryId := input.categoryId
    status := .draft
    version := defaultVersion
    metadata := input.metadata.getD []
    tags := (input.tags.getD []).dedup
    createdAt := now
    updatedAt := now
    publishedAt := none
    deletedAt := none }

/-- The handler `exports.createContent`: insert the row (status `draft`, tags
connect-or-created), then fire-and-forget ML analysis (its rejection only
logged), then `await` search indexing and list-cache invalidation — a throw in
either awaited call reaches the `catch`, which logs and answers
`Failed to create content` / 500.  On success: 201 with the created item. -/
def createContent (w : World) (f : Faults) (u : User) (input : ContentInput)
    (now : Nat) : World × Result :=
  let content : ContentItem := createdItem u input now w.store.nextId
  let store1 : Store :=
    { contents := w.store.contents ++ [content]
      versions := w.store.versions
      tagDict := connectOrCreate w.store.tagDict (input.tags.getD [])
      nextId := w.store.nextId + 1 }
  let w1 : World := { w with store := store1 }
  let w2 : World :=
    if f.mlThrows then { w1 with log := w1.log ++ ["error: analyzing content"] } else w1
  if f.searchThrows then
    ({ w2 with log := w2.log ++ ["error: creating content"] },
      .failure "Failed to create content" 500)
  else
    let w3 : World := { w2 with search := w2.search ++ [content.id] }
    if f.cacheThrows then
      ({ w3 with log := w3.log ++ ["error: creating content"] },
        .failure "Failed to create content" 500)
    else
      let w4 : World :=
        { w3 with cacheKeys := cacheDel w3.cacheKeys "content:list:*"
                  log := w3.log ++ ["info: content created"] }
      (w4, .success 201 (some content) (some "Content created successfully"))

/-- The `prisma.contentVersion.create` data of `updateContent`: the pre-update
snapshot of title, body and version, tagged with the updating user. -/
def snapshotOf (u : User) (id : Nat) (existing : ContentItem) : ContentVersion :=
  { contentId := id
    title := existing.title
    body := existing.body
    version := existing.version
    createdBy := u.id }

/-- The `prisma.content.update` data of `updateContent`: new title/body,
category passed through (field untouched when the body omits it),
`metadata || existingContent.metadata`, `version = existingContent.version + 1`,
`updatedAt = now`, and tags cleared-then-reconnected only when supplied. -/
def applyUpdate (input : ContentInput) (now : Nat) (existing : ContentItem) : ContentItem :=
  { existing with
    title := input.title
    body := input.body
    categoryId := match input.categoryId with
      | some g => some g
      | none => existing.categoryId
    metadata := input.metadata.getD existing.metadata
    version := existing.version + 1
    updatedAt := now
    tags := match input.tags with
      | some ts => ts.dedup
      | none => existing.tags }

/-- Body of `exports.updateContent` once `findUnique` has returned the row:
reject a caller who is neither the author nor an admin (403), append the
pre-update snapshot to `contentVersion`, apply the update, then
fire-and-forget ML re-analysis, then `await` search-index update and the two
cache deletions — a throw in an awaited call reaches the `catch`, which logs
and answers `Failed to update content` / 500 (the committed store write
stands). -/
def updateContentFound (w : World) (f : Faults) (u : User) (id : Nat)
    (input : ContentInput) (now : Nat) (existing : ContentItem) : World × Result :=
  if existing.authorId ≠ u.id ∧ u.role ≠ "admin" then
      (w, .failure "Not authorized to update this content" 403)
    else
      let snapshot : ContentVersion := snapshotOf u id existing
      let updated : ContentItem := applyUpdate input now existing
      let store1 : Store :=
        { contents := w.store.contents.map (fun c => if c.id == id then updated else c)
          versions := w.store.versions ++ [snapshot]
          tagDict := match input.tags with
            | some ts => connectOrCreate w.store.tagDict ts
            | none => w.store.tagDict
          nextId := w.store.nextId }
      let w1 : World := { w with store := store1 }
      let w2 : World :=
        if f.mlThrows then { w1 with log := w1.log ++ ["error: analyzing content"] } else w1
      if f.searchThrows then
        ({ w2 with log := w2.log ++ ["error: updating content"] },
          .failure "Failed to update content" 500)
      else if f.cacheThrows then
        ({ w2 with log := w2.log ++ ["error: updating content"] },
          .failure "Failed to update content" 500)
      else
        let w3 : World :=
          { w2 with cacheKeys := cacheDel (cacheDel w2.cacheKeys (itemKey id)) "content:list:*"
                    log := w2.log ++ ["info: content updated"] }
        (w3, .success 200 (some updated) (some "Content updated successfully"))

/-- The handler `exports.updateContent`: `findUnique` the row (404 if absent), then run
the authorized update body. -/
def updateContent (w : World) (f : Faults) (u : User) (id : Nat)
    (input : ContentInput) (now : Nat) : World × Result :=
  match findContent w.store id with
  | none => (w, .failure "Content not found" 404)
  | some existing => updateContentFound w f u id input now existing

/-- The `prisma.content.update` data of `deleteContent`: the soft delete —
`deletedAt = now` and status `deleted`; the row itself is retained. -/
def softDeleted (now : Nat) (content : ContentItem) : ContentItem :=
  { content with deletedAt := some now, status := .deleted }

/-- Body of `exports.deleteContent` once `findUnique` has returned the row:
reject a caller who is neither the author nor an admin (403), soft-delete the
row, then `await` removal of the search document and the two cache deletions —
a throw there reaches the `catch` (500, committed soft delete stands).  On
success: 200 with a message and no data. -/
def deleteContentFound (w : World) (f : Faults) (u : User) (id : Nat)
    (now : Nat) (content : ContentItem) : World × Result :=
  if content.authorId ≠ u.id ∧ u.role ≠ "admin" then
      (w, .failure "Not authorized to delete this content" 403)
    else
      let updated : ContentItem := softDeleted now content
      let store1 : Store :=
        { w.store with
          contents := w.store.contents.map (fun c => if c.id == id then updated else c) }
      let w1 : World := { w with store := store1 }
      if f.searchThrows then
        ({ w1 with log := w1.log ++ ["error: deleting content"] },
          .failure "Failed to delete content" 500)
      else
        let w2 : World := { w1 with search := w1.search.filter (fun i => i != id) }
        if f.cacheThrows then
          ({ w2 with log := w2.log ++ ["error: deleting content"] },
            .failure "Failed to delete content" 500)
        else
          let w3 : World :=
            { w2 with cacheKeys := cacheDel (cacheDel w2.cacheKeys (itemKey id)) "content:list:*"
                      log := w2.log ++ ["info: content deleted"] }
          (w3, .success 200 none (some "Content deleted successfully"))

/-- The handler `exports.deleteContent`: `findUnique` the row (404 if absent), then run
the authorized soft-delete body. -/
def deleteContent (w : World) (f : Faults) (u : User) (id : Nat)
    (now : Nat) : World × Result :=
  match findContent w.store id with
  | none => (w, .failure "Content not found" 404)
  | some content => deleteContentFound w f u id now content

/-- The `prisma.content.update` data of `publishContent`: status `published`
and `publishedAt = now`. -/
def publishedItem (now : Nat) (existing : ContentItem) : ContentItem :=
  { existing with status := .published, publishedAt := some now }

/-- Body of `exports.publishContent` when `prisma.content.update` finds the
row: set it to `published` with `publishedAt = now`, then `await` the
notification dispatch and the two cache deletions (a throw there yields the
generic 500 after the committed write).  Note there is no author/role check
anywhere on this path. -/
def publishContentFound (w : World) (f : Faults) (id : Nat)
    (now : Nat) (existing : ContentItem) : World × Result :=
    let updated : ContentItem := publishedItem now existing
    let store1 : Store :=
      { w.store with
        contents := w.store.contents.map (fun c => if c.id == id then updated else c) }
    let w1 : World := { w with store := store1 }
    if f.notifyThrows then
      ({ w1 with log := w1.log ++ ["error: publishing content"] },
        .failure "Failed to publish content" 500)
    else if f.cacheThrows then
      ({ w1 with log := w1.log ++ ["error: publishing content"] },
        .failure "Failed to publish content" 500)
    else
      let w2 : World :=
        { w1 with cacheKeys := cacheDel (cacheDel w1.cacheKeys (itemKey id)) "content:list:*"
                  log := w1.log ++ ["info: content published"] }
      (w2, .success 200 (some updated) (some "Content published successfully"))

/-- The handler `exports.publishContent`: no lookup guard and no author/role check —
`prisma.content.update` is called directly; when the row is absent Prisma
throws, the `catch` logs and answers the generic
`Failed to publish content` / 500 (never a 404 and never a 403). -/
def publishContent (w : World) (f : Faults) (u : User) (id : Nat)
    (now : Nat) : World × Result :=
  match findContent w.store id with
  | none =>
    ({ w with log := w.log ++ ["error: publishing content"] },
      .failure "Failed to publish content" 500)
  | some existing => publishContentFound w f id now existing

/-- Prisma `contains` with `mode: insensitive`: case-insensitive substring
test (an empty needle matches everything). -/
def containsCI (hay needle : String) : Bool :=
  needle.isEmpty || decide (2 ≤ (hay.toLower.splitOn needle.toLower).length)

/-- The query-string parameters `getAllContent` destructures (page and limit
default to 1 and 20 upstream; sort key and direction only reorder the page and
are not modelled — no property here depends on row order). -/
structure ListQuery where
  page : Nat
  limit : Nat
  status : Option Status
  categoryId : Option Nat
  authorId : Option Nat
  search : Option String
deriving Repr, DecidableEq

/-- The `where` object `getAllContent` builds: equality filters for status /
category / author plus the case-insensitive title-or-body substring `OR`. -/
def matchesWhere (q : ListQuery) (c : ContentItem) : Bool :=
  (match q.status with | some s => c.status == s | none => true) &&
  (match q.categoryId with | some g => c.categoryId == some g | none => true) &&
  (match q.authorId with | some a => c.authorId == a | none => true) &&
  (match q.search with
    | some s => containsCI c.title s || containsCI c.body s
    | none => true)

/-- A list response: `data` plus the pagination envelope. -/
structure ListEnvelope where
  data : List ContentItem
  pagination : Pagination
deriving Repr, DecidableEq

/-- The handler `exports.getAllContent`: count the rows matching `where`, take the
`skip = (page-1)*limit` / `take = limit` window, and answer with the
pagination envelope whose `pages` is `Math.ceil(total / limit)`. -/
def getAllContent (w : World) (q : ListQuery) : ListEnvelope :=
  let filtered := w.store.contents.filter (matchesWhere q)
  let total := filtered.length
  { data := (filtered.drop ((q.page - 1) * q.limit)).take q.limit
    pagination :=
      { page := q.page, limit := q.limit, total := total, pages := pagesOf total q.limit } }

/-- What the external search service's `search` call answers: hit document
ids and the total hit count (the service is an external collaborator; its
ranking is out of scope). -/
structure SearchResults where
  hits : List Nat
  total : Nat
deriving Repr, DecidableEq

/-- A search response: the service's hits plus the same pagination envelope
shape as the list path. -/
structure SearchEnvelope where
  data : List Nat
  pagination : Pagination
deriving Repr, DecidableEq

/-- The handler `exports.searchContent`: pass query/filters/page/limit through to the
search service and reshape its `hits` / `total` into the envelope, with
`pages = Math.ceil(results.total / limit)`. -/
def searchContent (results : SearchResults) (page limit : Nat) : SearchEnvelope :=
  { data := results.hits
    pagination :=
      { page := page, limit := limit, total := results.total
        pages := pagesOf results.total limit } }

/-! ### Concrete fixtures for witnesses and counterexamples -/

/-- A concrete content row (author 7, version 3, draft). -/
def sampleItem : ContentItem :=
  { id := 1, title := "A", body := "B", authorId := 7, categoryId := none,
    status := .draft, version := 3, metadata := [("k", "v")], tags := ["x"],
    createdAt := 0, updatedAt := 0, publishedAt := none, deletedAt := none }

/-- A one-row world holding `sampleItem`. -/
def sampleWorld : World :=
  { store := { contents := [sampleItem], versions := [], tagDict := ["x"], nextId := 2 },
    search := [1], cacheKeys := ["content:1", "content:list:all"], log := [] }

/-- A request body carrying only a new title and body. -/
def sampleInput : ContentInput :=
  { title := "A2", body := "B2", categoryId := none, tags := none, metadata := none }

/-- The author of `sampleItem` (no privileged role). -/
def sampleAuthor : User := { id := 7, role := "editor" }

/-- A different, non-admin user. -/
def sampleStranger : User := { id := 8, role := "editor" }

/-- No downstream collaborator throws. -/
def noFaults : Faults := { mlThrows := false, searchThrows := false,
                           cacheThrows := false, notifyThrows := false }

/-- Only the search-index client throws. -/
def searchFault : Faults := { mlThrows := false, searchThrows := true,
                              cacheThrows := false, notifyThrows := false }

/-- Only the fire-and-forget ML analysis dispatch rejects. -/
def mlFault : Faults := { mlThrows := true, searchThrows := false,
                          cacheThrows := false, notifyThrows := false }

/-- A create body with duplicate tag names, for the C5 witness. -/
def sampleCreateInput : ContentInput :=
  { title := "N", body := "C", categoryId := none,
    tags := some ["x", "y", "x"], metadata := none }

/-! ### Helper lemmas -/

/-- If a row with the given id is present, replacing every row with that id
rewrites what `find?` returns to the replacement. -/
lemma find?_map_replace (l : List ContentItem) (id : Nat) (c r : ContentItem)
    (hr : r.id = id)
    (h : l.find? (fun x => x.id == id) = some c) :
    (l.map fun x => if x.id == id then r else x).find? (fun x => x.id == id) = some r := by
  induction l with
  | nil => simp [List.find?] at h
  | cons a l ih =>
    by_cases ha : a.id = id
    · have hb : (a.id == id) = true := beq_iff_eq.mpr ha
      have hrb : (r.id == id) = true := beq_iff_eq.mpr hr
      rw [List.map_cons, if_pos hb,
        List.find?_cons_of_pos (p := fun x : ContentItem => x.id == id) _ hrb]
    · have hb : ¬ ((a.id == id) = true) := by simp [ha]
      rw [List.find?_cons_of_neg (p := fun x : ContentItem => x.id == id) _ hb] at h
      rw [List.map_cons, if_neg hb,
        List.find?_cons_of_neg (p := fun x : ContentItem => x.id == id) _ hb]
      exact ih h

/-- Rows whose id differs are untouched by the replacement map, so a lookup of
a different id is unchanged. -/
lemma find?_map_replace_ne (l : List ContentItem) (id j : Nat) (r : ContentItem)
    (hr : r.id = id) (hne : j ≠ id) :
    (l.map fun x => if x.id == id then r else x).find? (fun x => x.id == j) =
      l.find? (fun x => x.id == j) := by
  induction l with
  | nil => simp
  | cons a l ih =>
    by_cases ha : a.id = id
    · have hb : (a.id == id) = true := beq_iff_eq.mpr ha
      have hrj : ¬ ((r.id == j) = true) := by simp [hr, Ne.symm hne]
      have haj : ¬ ((a.id == j) = true) := by simp [ha, Ne.symm hne]
      rw [List.map_cons, if_pos hb,
        List.find?_cons_of_neg (p := fun x : ContentItem => x.id == j) _ hrj,
        List.find?_cons_of_neg (p := fun x : ContentItem => x.id == j) _ haj]
      exact ih
    · have hb : ¬ ((a.id == id) = true) := by simp [ha]
      rw [List.map_cons, if_neg hb]
      by_cases haj : a.id = j
      · rw [List.find?_cons_of_pos (p := fun x : ContentItem => x.id == j) _ (beq_iff_eq.mpr haj),
          List.find?_cons_of_pos (p := fun x : ContentItem => x.id == j) _ (beq_iff_eq.mpr haj)]
      · rw [List.find?_cons_of_neg (p := fun x : ContentItem => x.id == j) _ (by simp [haj]),
          List.find?_cons_of_neg (p := fun x : ContentItem => x.id == j) _ (by simp [haj])]
        exact ih

/-- Names already in the tag dictionary survive `connectOrCreate`. -/
lemma mem_connectOrCreate_left : ∀ (ts d : List String) (x : String),
    x ∈ d → x ∈ connectOrCreate d ts
  | [], _, _, hx => hx
  | t :: ts, d, x, hx => by
    simp only [connectOrCreate, List.foldl_cons]
    refine mem_connectOrCreate_left ts _ x ?_
    by_cases ht : t ∈ d
    · simpa [ht] using hx
    · simp [ht, hx]

/-- Every name passed to `connectOrCreate` ends up in the tag dictionary
(connected if present, created otherwise). -/
lemma mem_connectOrCreate_of_mem : ∀ (ts d : List String) (x : String),
    x ∈ ts → x ∈ connectOrCreate d ts
  | [], _, _, hx => by simp at hx
  | t :: ts, d, x, hx => by
    simp only [connectOrCreate, List.foldl_cons]
    rcases List.mem_cons.mp hx with rfl | hx'
    · refine mem_connectOrCreate_left ts _ x ?_
      by_cases ht : x ∈ d
      · rw [if_pos ht]; exact ht
      · simp [ht]
    · exact mem_connectOrCreate_of_mem ts _ x hx'

/-- The value `Math.ceil(total / limit)` over exact rationals is ceiling division, for
any positive limit. -/
lemma pagesOf_eq_ceilDiv (t l : Nat) (hl : 0 < l) : pagesOf t l = t ⌈/⌉ l := by
  have hl' : (0 : ℚ) < (l : ℚ) := by exact_mod_cast hl
  have key : ∀ n : Nat, pagesOf t l ≤ n ↔ t ⌈/⌉ l ≤ n := by
    intro n
    rw [pagesOf, Nat.ceil_le, div_le_iff₀ hl', ceilDiv_le_iff_le_mul hl,
      ← Nat.cast_mul, Nat.cast_le, Nat.mul_comm]
  exact le_antisymm ((key _).mpr le_rfl) ((key _).mp le_rfl)

/-- With a positive limit and no hits, `Math.ceil(total / limit)` is zero. -/
lemma pagesOf_zero (l : Nat) (hl : 0 < l) : pagesOf 0 l = 0 := by
  rw [pagesOf_eq_ceilDiv 0 l hl, Nat.ceilDiv_eq_add_pred_div]
  exact Nat.div_eq_of_lt (by omega)

/-- A successful `findUnique` pins the row's id. -/
lemma findContent_id (s : Store) (id : Nat) (c : ContentItem)
    (h : findContent s id = some c) : c.id = id := by
  have h' : s.contents.find? (fun x => x.id == id) = some c := h
  exact beq_iff_eq.mp
    (List.find?_some (p := fun x : ContentItem => x.id == id) h')

lemma updateContent_found (w : World) (f : Faults) (u : User) (id : Nat)
    (input : ContentInput) (now : Nat) (existing : ContentItem)
    (hfound : findContent w.store id = some existing) :
    updateContent w f u id input now = updateContentFound w f u id input now existing := by
  unfold updateContent
  rw [hfound]

lemma deleteContent_found (w : World) (f : Faults) (u : User) (id : Nat)
    (now : Nat) (content : ContentItem)
    (hfound : findContent w.store id = some content) :
    deleteContent w f u id now = deleteContentFound w f u id now content := by
  unfold deleteContent
  rw [hfound]

lemma publishContent_found (w : World) (f : Faults) (u : User) (id : Nat)
    (now : Nat) (existing : ContentItem)
    (hfound : findContent w.store id = some existing) :
    publishContent w f u id now = publishContentFound w f id now existing := by
  unfold publishContent
  rw [hfound]

/-- The authorized update path answers 403 and leaves the world untouched when
the caller is neither the author nor an admin. -/
lemma updateContentFound_forbidden (w : World) (f : Faults) (u : User) (id : Nat)
    (input : ContentInput) (now : Nat) (existing : ContentItem)
    (hauth : existing.authorId ≠ u.id ∧ u.role ≠ "admin") :
    updateContentFound w f u id input now existing =
      (w, .failure "Not authorized to update this content" 403) := by
  unfold updateContentFound
  rw [if_pos hauth]

/-- Whatever the downstream faults, the authorized update path commits exactly
this store: the row rewritten by `applyUpdate` and the snapshot appended. -/
lemma updateContentFound_store (w : World) (f : Faults) (u : User) (id : Nat)
    (input : ContentInput) (now : Nat) (existing : ContentItem)
    (hauth : ¬(existing.authorId ≠ u.id ∧ u.role ≠ "admin")) :
    (updateContentFound w f u id input now existing).1.store =
      { contents := w.store.contents.map
          (fun c => if c.id == id then applyUpdate input now existing else c)
        versions := w.store.versions ++ [snapshotOf u id existing]
        tagDict := match input.tags with
          | some ts => connectOrCreate w.store.tagDict ts
          | none => w.store.tagDict
        nextId := w.store.nextId } := by
  unfold updateContentFound
  rw [if_neg hauth]
  cases f.mlThrows <;> cases f.searchThrows <;> cases f.cacheThrows <;> rfl

/-- A throwing search-index update makes the update request answer the generic
500 failure. -/
lemma updateContentFound_result_search (w : World) (f : Faults) (u : User) (id : Nat)
    (input : ContentInput) (now : Nat) (existing : ContentItem)
    (hauth : ¬(existing.authorId ≠ u.id ∧ u.role ≠ "admin"))
    (hs : f.searchThrows = true) :
    (updateContentFound w f u id input now existing).2 =
      .failure "Failed to update content" 500 := by
  unfold updateContentFound
  rw [if_neg hauth]
  cases f.mlThrows <;> simp [hs]

/-- A throwing cache invalidation (search sync fine) also makes the update
request answer the generic 500 failure. -/
lemma updateContentFound_result_cache (w : World) (f : Faults) (u : User) (id : Nat)
    (input : ContentInput) (now : Nat) (existing : ContentItem)
    (hauth : ¬(existing.authorId ≠ u.id ∧ u.role ≠ "admin"))
    (hs : f.searchThrows = false) (hc : f.cacheThrows = true) :
    (updateContentFound w f u id input now existing).2 =
      .failure "Failed to update content" 500 := by
  unfold updateContentFound
  rw [if_neg hauth]
  cases f.mlThrows <;> simp [hs, hc]

/-- When neither awaited downstream call throws, the update request succeeds
with the updated item (whatever the fire-and-forget ML dispatch does). -/
lemma updateContentFound_result_ok (w : World) (f : Faults) (u : User) (id : Nat)
    (input : ContentInput) (now : Nat) (existing : ContentItem)
    (hauth : ¬(existing.authorId ≠ u.id ∧ u.role ≠ "admin"))
    (hs : f.searchThrows = false) (hc : f.cacheThrows = false) :
    (updateContentFound w f u id input now existing).2 =
      .success 200 (some (applyUpdate input now existing))
        (some "Content updated successfully") := by
  unfold updateContentFound
  rw [if_neg hauth]
  cases f.mlThrows <;> simp [hs, hc]

/-- Whatever the downstream faults, `createContent` commits the insert: the
new row is appended and the tag dictionary connect-or-created. -/
lemma createContent_store (w : World) (f : Faults) (u : User)
    (input : ContentInput) (now : Nat) :
    (createContent w f u input now).1.store =
      { contents := w.store.contents ++ [createdItem u input now w.store.nextId]
        versions := w.store.versions
        tagDict := connectOrCreate w.store.tagDict (input.tags.getD [])
        nextId := w.store.nextId + 1 } := by
  unfold createContent
  cases f.mlThrows <;> cases f.searchThrows <;> cases f.cacheThrows <;> rfl

/-- A throwing search indexing makes the create request answer the generic
500 failure. -/
lemma createContent_result_search (w : World) (f : Faults) (u : User)
    (input : ContentInput) (now : Nat) (hs : f.searchThrows = true) :
    (createContent w f u input now).2 = .failure "Failed to create content" 500 := by
  unfold createContent
  cases f.mlThrows <;> simp [hs]

/-- A throwing list-cache invalidation (search fine) also makes the create
request answer the generic 500 failure. -/
lemma createContent_result_cache (w : World) (f : Faults) (u : User)
    (input : ContentInput) (now : Nat)
    (hs : f.searchThrows = false) (hc : f.cacheThrows = true) :
    (createContent w f u input now).2 = .failure "Failed to create content" 500 := by
  unfold createContent
  cases f.mlThrows <;> simp [hs, hc]

/-- When neither awaited downstream call throws, the create request answers
201 with the created item (whatever the fire-and-forget ML dispatch does). -/
lemma createContent_result_ok (w : World) (f : Faults) (u : User)
    (input : ContentInput) (now : Nat)
    (hs : f.searchThrows = false) (hc : f.cacheThrows = false) :
    (createContent w f u input now).2 =
      .success 201 (some (createdItem u input now w.store.nextId))
        (some "Content created successfully") := by
  unfold createContent
  cases f.mlThrows <;> simp [hs, hc]

/-- The authorized delete path answers 403 and leaves the world untouched when
the caller is neither the author nor an admin. -/
lemma deleteContentFound_forbidden (w : World) (f : Faults) (u : User) (id : Nat)
    (now : Nat) (content : ContentItem)
    (hauth : content.authorId ≠ u.id ∧ u.role ≠ "admin") :
    deleteContentFound w f u id now content =
      (w, .failure "Not authorized to delete this content" 403) := by
  unfold deleteContentFound
  rw [if_pos hauth]

/-- Whatever the downstream faults, the authorized delete path commits the
soft delete in the store. -/
lemma deleteContentFound_contents (w : World) (f : Faults) (u : User) (id : Nat)
    (now : Nat) (content : ContentItem)
    (hauth : ¬(content.authorId ≠ u.id ∧ u.role ≠ "admin")) :
    (deleteContentFound w f u id now content).1.store.contents =
      w.store.contents.map (fun c => if c.id == id then softDeleted now content else c) := by
  unfold deleteContentFound
  rw [if_neg hauth]
  cases f.searchThrows <;> cases f.cacheThrows <;> rfl

/-- A throwing search-document removal makes the delete request answer the
generic 500 failure. -/
lemma deleteContentFound_result_search (w : World) (f : Faults) (u : User) (id : Nat)
    (now : Nat) (content : ContentItem)
    (hauth : ¬(content.authorId ≠ u.id ∧ u.role ≠ "admin"))
    (hs : f.searchThrows = true) :
    (deleteContentFound w f u id now content).2 =
      .failure "Failed to delete content" 500 := by
  unfold deleteContentFound
  rw [if_neg hauth]
  simp [hs]

/-- A throwing cache invalidation (search fine) also makes the delete request
answer the generic 500 failure. -/
lemma deleteContentFound_result_cache (w : World) (f : Faults) (u : User) (id : Nat)
    (now : Nat) (content : ContentItem)
    (hauth : ¬(content.authorId ≠ u.id ∧ u.role ≠ "admin"))
    (hs : f.searchThrows = false) (hc : f.cacheThrows = true) :
    (deleteContentFound w f u id now content).2 =
      .failure "Failed to delete content" 500 := by
  unfold deleteContentFound
  rw [if_neg hauth]
  simp [hs, hc]

/-- When neither awaited downstream call throws, the delete request succeeds
(200, message only) and the search index no longer holds the id. -/
lemma deleteContentFound_result_ok (w : World) (f : Faults) (u : User) (id : Nat)
    (now : Nat) (content : ContentItem)
    (hauth : ¬(content.authorId ≠ u.id ∧ u.role ≠ "admin"))
    (hs : f.searchThrows = false) (hc : f.cacheThrows = false) :
    (deleteContentFound w f u id now content).2 =
      .success 200 none (some "Content deleted successfully") ∧
    (deleteContentFound w f u id now content).1.search =
      w.search.filter (fun i => i != id) := by
  unfold deleteContentFound
  rw [if_neg hauth]
  simp [hs, hc]

/-- Whatever the downstream faults, the publish path (row present) commits the
status change in the store. -/
lemma publishContentFound_contents (w : World) (f : Faults) (id : Nat)
    (now : Nat) (existing : ContentItem) :
    (publishContentFound w f id now existing).1.store.contents =
      w.store.contents.map (fun c => if c.id == id then publishedItem now existing else c) := by
  unfold publishContentFound
  cases f.notifyThrows <;> cases f.cacheThrows <;> rfl

/-- A throwing notification dispatch makes the publish request answer the
generic 500 failure. -/
lemma publishContentFound_result_notify (w : World) (f : Faults) (id : Nat)
    (now : Nat) (existing : ContentItem) (hn : f.notifyThrows = true) :
    (publishContentFound w f id now existing).2 =
      .failure "Failed to publish content" 500 := by
  unfold publishContentFound
  simp [hn]

/-- A throwing cache invalidation (notification fine) also makes the publish
request answer the generic 500 failure. -/
lemma publishContentFound_result_cache (w : World) (f : Faults) (id : Nat)
    (now : Nat) (existing : ContentItem)
    (hn : f.notifyThrows = false) (hc : f.cacheThrows = true) :
    (publishContentFound w f id now existing).2 =
      .failure "Failed to publish content" 500 := by
  unfold publishContentFound
  simp [hn, hc]

/-- When neither awaited downstream call throws, the publish request answers
200 with the published item. -/
lemma publishContentFound_result_ok (w : World) (f : Faults) (id : Nat)
    (now : Nat) (existing : ContentItem)
    (hn : f.notifyThrows = false) (hc : f.cacheThrows = false) :
    (publishContentFound w f id now existing).2 =
      .success 200 (some (publishedItem now existing))
        (some "Content published successfully") := by
  unfold publishContentFound
  simp [hn, hc]

/-- With only the ML dispatch rejecting, the update request still runs to its
success response and the rejection appears only in the log. -/
lemma updateContentFound_log_ml (w : World) (f : Faults) (u : User) (id : Nat)
    (input : ContentInput) (now : Nat) (existing : ContentItem)
    (hauth : ¬(existing.authorId ≠ u.id ∧ u.role ≠ "admin"))
    (hml : f.mlThrows = true) (hs : f.searchThrows = false) (hc : f.cacheThrows = false) :
    (updateContentFound w f u id input now existing).1.log =
      (w.log ++ ["error: analyzing content"]) ++ ["info: content updated"] := by
  unfold updateContentFound
  rw [if_neg hauth]
  simp [hml, hs, hc]

/-- With only the ML dispatch rejecting, the create request still runs to its
success response and the rejection appears only in the log. -/
lemma createContent_log_ml (w : World) (f : Faults) (u : User)
    (input : ContentInput) (now : Nat)
    (hml : f.mlThrows = true) (hs : f.searchThrows = false) (hc : f.cacheThrows = false) :
    (createContent w f u input now).1.log =
      (w.log ++ ["error: analyzing content"]) ++ ["info: content created"] := by
  unfold createContent
  simp [hml, hs, hc]

/-! ### Claim theorems -/

/-- C3 counterexample: a GET request whose path segment is `search` is
dispatched by the content router to `getContentById` (the `GET /:id` route,
registered earlier), not to `searchContent`. -/
theorem dispatch_search_hits_getContentById :
    dispatch contentRoutes "GET" ["search"] = some "getContentById" ∧
    some "getContentById" ≠ some "searchContent" := by
  constructor
  · rfl
  · decide

/-- C8: the content router references handler names that the content
controller does not export: `archiveContent`, `restoreVersion` and
`duplicateContent` are each the handler of a registered route but are
missing from the controller's export list, so not every registered handler
is a defined export. -/
theorem contentRoutes_reference_missing_exports :
    ((contentRoutes.map (·.handler)).all (contentControllerExports.contains ·)) = false ∧
    "archiveContent" ∈ contentRoutes.map (·.handler) ∧
    "restoreVersion" ∈ contentRoutes.map (·.handler) ∧
    "duplicateContent" ∈ contentRoutes.map (·.handler) ∧
    "archiveContent" ∉ contentControllerExports ∧
    "restoreVersion" ∉ contentControllerExports ∧
    "duplicateContent" ∉ contentControllerExports := by
  refine ⟨rfl, ?_, ?_, ?_, ?_, ?_, ?_⟩ <;> decide

/-- C2: for every successful Update on an existing item, the stored version
afterwards equals the pre-update version plus exactly one, and a
ContentVersion row whose title, body and version equal the pre-update values
is in the store. -/
theorem updateContent_version_and_snapshot
    (w : World) (f : Faults) (u : User) (id : Nat) (input : ContentInput)
    (now : Nat) (existing : ContentItem)
    (hfound : findContent w.store id = some existing)
    (hsucc : (updateContent w f u id input now).2.isSuccess = true) :
    (∃ c, findContent (updateContent w f u id input now).1.store id = some c ∧
      c.version = existing.version + 1) ∧
    ContentVersion.mk id existing.title existing.body existing.version u.id ∈
      (updateContent w f u id input now).1.store.versions := by
  rw [updateContent_found w f u id input now existing hfound] at hsucc ⊢
  by_cases hauth : existing.authorId ≠ u.id ∧ u.role ≠ "admin"
  · rw [updateContentFound_forbidden w f u id input now existing hauth] at hsucc
    simp [Result.isSuccess] at hsucc
  · rw [updateContentFound_store w f u id input now existing hauth]
    constructor
    · refine ⟨applyUpdate input now existing, ?_, rfl⟩
      have hid : (applyUpdate input now existing).id = id := by
        have h := findContent_id w.store id existing hfound
        simpa [applyUpdate] using h
      exact find?_map_replace w.store.contents id existing _ hid hfound
    · exact List.mem_append_right _ (List.mem_singleton.mpr rfl)

/-- C2 witness: at the sample world the hypotheses hold and the conclusion is
delivered by the theorem. -/
theorem updateContent_version_and_snapshot_witness :
    findContent sampleWorld.store 1 = some sampleItem ∧
    (updateContent sampleWorld noFaults sampleAuthor 1 sampleInput 9).2.isSuccess = true ∧
    ((∃ c, findContent (updateContent sampleWorld noFaults sampleAuthor 1 sampleInput 9).1.store 1 =
        some c ∧ c.version = sampleItem.version + 1) ∧
      ContentVersion.mk 1 sampleItem.title sampleItem.body sampleItem.version sampleAuthor.id ∈
        (updateContent sampleWorld noFaults sampleAuthor 1 sampleInput 9).1.store.versions) :=
  ⟨rfl, rfl,
    updateContent_version_and_snapshot sampleWorld noFaults sampleAuthor 1 sampleInput 9
      sampleItem rfl rfl⟩

/-- C4: an update attempted on an existing item by a user who is neither its
author nor an admin is rejected with the 403 forbidden error, the content
rows are unchanged, and no ContentVersion row is created. -/
theorem updateContent_forbidden_unchanged
    (w : World) (f : Faults) (u : User) (id : Nat) (input : ContentInput)
    (now : Nat) (existing : ContentItem)
    (hfound : findContent w.store id = some existing)
    (h1 : existing.authorId ≠ u.id) (h2 : u.role ≠ "admin") :
    (updateContent w f u id input now).2 =
      .failure "Not authorized to update this content" 403 ∧
    (updateContent w f u id input now).1.store.contents = w.store.contents ∧
    (updateContent w f u id input now).1.store.versions = w.store.versions := by
  rw [updateContent_found w f u id input now existing hfound,
    updateContentFound_forbidden w f u id input now existing ⟨h1, h2⟩]
  exact ⟨rfl, rfl, rfl⟩

/-- C4 witness: the sample stranger (id 8, role editor) against the sample
item (author 7). -/
theorem updateContent_forbidden_unchanged_witness :
    findContent sampleWorld.store 1 = some sampleItem ∧
    sampleItem.authorId ≠ sampleStranger.id ∧
    sampleStranger.role ≠ "admin" ∧
    ((updateContent sampleWorld noFaults sampleStranger 1 sampleInput 9).2 =
        .failure "Not authorized to update this content" 403 ∧
      (updateContent sampleWorld noFaults sampleStranger 1 sampleInput 9).1.store.contents =
        sampleWorld.store.contents ∧
      (updateContent sampleWorld noFaults sampleStranger 1 sampleInput 9).1.store.versions =
        sampleWorld.store.versions) :=
  ⟨rfl, by decide, by decide,
    updateContent_forbidden_unchanged sampleWorld noFaults sampleStranger 1 sampleInput 9
      sampleItem rfl (by decide) (by decide)⟩

/-- C10: on a successful update, omitted metadata leaves the stored metadata
unchanged, omitted tags leave the tag set unchanged, and the update never
modifies status, publishedAt, deletedAt or createdAt. -/
theorem updateContent_frame
    (w : World) (f : Faults) (u : User) (id : Nat) (input : ContentInput)
    (now : Nat) (existing : ContentItem)
    (hfound : findContent w.store id = some existing)
    (hsucc : (updateContent w f u id input now).2.isSuccess = true) :
    ∃ c, findContent (updateContent w f u id input now).1.store id = some c ∧
      (input.metadata = none → c.metadata = existing.metadata) ∧
      (input.tags = none → c.tags = existing.tags) ∧
      c.status = existing.status ∧
      c.publishedAt = existing.publishedAt ∧
      c.deletedAt = existing.deletedAt ∧
      c.createdAt = existing.createdAt := by
  rw [updateContent_found w f u id input now existing hfound] at hsucc ⊢
  by_cases hauth : existing.authorId ≠ u.id ∧ u.role ≠ "admin"
  · rw [updateContentFound_forbidden w f u id input now existing hauth] at hsucc
    simp [Result.isSuccess] at hsucc
  · rw [updateContentFound_store w f u id input now existing hauth]
    refine ⟨applyUpdate input now existing, ?_, ?_, ?_, rfl, rfl, rfl, rfl⟩
    · have hid : (applyUpdate input now existing).id = id := by
        have h := findContent_id w.store id existing hfound
        simpa [applyUpdate] using h
      exact find?_map_replace w.store.contents id existing _ hid hfound
    · intro hm
      simp [applyUpdate, hm]
    · intro ht
      simp [applyUpdate, ht]

/-- C10 witness: the sample update omits metadata and tags; the stored row
keeps them and the untouched lifecycle fields. -/
theorem updateContent_frame_witness :
    findContent sampleWorld.store 1 = some sampleItem ∧
    (updateContent sampleWorld noFaults sampleAuthor 1 sampleInput 9).2.isSuccess = true ∧
    (∃ c, findContent (updateContent sampleWorld noFaults sampleAuthor 1 sampleInput 9).1.store 1 =
        some c ∧
      (sampleInput.metadata = none → c.metadata = sampleItem.metadata) ∧
      (sampleInput.tags = none → c.tags = sampleItem.tags) ∧
      c.status = sampleItem.status ∧
      c.publishedAt = sampleItem.publishedAt ∧
      c.deletedAt = sampleItem.deletedAt ∧
      c.createdAt = sampleItem.createdAt) :=
  ⟨rfl, rfl,
    updateContent_frame sampleWorld noFaults sampleAuthor 1 sampleInput 9 sampleItem rfl rfl⟩

/-- C5: every successful Create answers with an item whose status is draft,
whose version is 1, and whose tag list is exactly the de-duplicated input tag
set, each of those names ending up in the tag dictionary (connected or newly
created). -/
theorem createContent_draft_v1_tags
    (w : World) (f : Faults) (u : User) (input : ContentInput) (now : Nat)
    (st : Nat) (d : Option ContentItem) (m : Option String)
    (hsucc : (createContent w f u input now).2 = .success st d m) :
    ∃ c, d = some c ∧
      c.status = .draft ∧
      c.version = 1 ∧
      c.tags.Nodup ∧
      (∀ t, t ∈ c.tags ↔ t ∈ input.tags.getD []) ∧
      ∀ t ∈ input.tags.getD [], t ∈ (createContent w f u input now).1.store.tagDict := by
  by_cases hs : f.searchThrows = true
  · rw [createContent_result_search w f u input now hs] at hsucc
    exact absurd hsucc (by simp)
  · by_cases hc : f.cacheThrows = true
    · rw [createContent_result_cache w f u input now
        (by simpa using hs) hc] at hsucc
      exact absurd hsucc (by simp)
    · rw [createContent_result_ok w f u input now
        (by simpa using hs) (by simpa using hc)] at hsucc
      injection hsucc with h1 h2 h3
      refine ⟨createdItem u input now w.store.nextId, h2.symm, rfl, rfl,
        List.nodup_dedup _, fun t => List.mem_dedup, ?_⟩
      rw [createContent_store w f u input now]
      exact fun t ht => mem_connectOrCreate_of_mem _ _ t ht

/-- C5 witness: creating with duplicate tags at the sample world yields 201
with the created draft item, and the theorem delivers the tag-set facts. -/
theorem createContent_draft_v1_tags_witness :
    (createContent sampleWorld noFaults sampleAuthor sampleCreateInput 5).2 =
      .success 201 (some (createdItem sampleAuthor sampleCreateInput 5 2))
        (some "Content created successfully") ∧
    (∃ c, some (createdItem sampleAuthor sampleCreateInput 5 2) = some c ∧
      c.status = .draft ∧
      c.version = 1 ∧
      c.tags.Nodup ∧
      (∀ t, t ∈ c.tags ↔ t ∈ sampleCreateInput.tags.getD []) ∧
      ∀ t ∈ sampleCreateInput.tags.getD [],
        t ∈ (createContent sampleWorld noFaults sampleAuthor sampleCreateInput 5).1.store.tagDict) :=
  ⟨rfl,
    createContent_draft_v1_tags sampleWorld noFaults sampleAuthor sampleCreateInput 5
      201 (some (createdItem sampleAuthor sampleCreateInput 5 2))
      (some "Content created successfully") rfl⟩

/-- C6: every successful Delete keeps the content row, now with status
deleted and a non-null deletedAt, and removes the id from the search index
entirely. -/
theorem deleteContent_soft_and_search
    (w : World) (f : Faults) (u : User) (id : Nat) (now : Nat)
    (content : ContentItem)
    (hfound : findContent w.store id = some content)
    (hsucc : (deleteContent w f u id now).2.isSuccess = true) :
    (∃ c, findContent (deleteContent w f u id now).1.store id = some c ∧
      c.status = .deleted ∧ c.deletedAt ≠ none) ∧
    id ∉ (deleteContent w f u id now).1.search := by
  rw [deleteContent_found w f u id now content hfound] at hsucc ⊢
  by_cases hauth : content.authorId ≠ u.id ∧ u.role ≠ "admin"
  · rw [deleteContentFound_forbidden w f u id now content hauth] at hsucc
    simp [Result.isSuccess] at hsucc
  · by_cases hs : f.searchThrows = true
    · rw [deleteContentFound_result_search w f u id now content hauth hs] at hsucc
      simp [Result.isSuccess] at hsucc
    · by_cases hc : f.cacheThrows = true
      · rw [deleteContentFound_result_cache w f u id now content hauth
          (by simpa using hs) hc] at hsucc
        simp [Result.isSuccess] at hsucc
      · have hok := deleteContentFound_result_ok w f u id now content hauth
          (by simpa using hs) (by simpa using hc)
        constructor
        · have hcont := deleteContentFound_contents w f u id now content hauth
          refine ⟨softDeleted now content, ?_, rfl, by simp [softDeleted]⟩
          show (deleteContentFound w f u id now content).1.store.contents.find?
              (fun x => x.id == id) = some (softDeleted now content)
          rw [hcont]
          have hid : (softDeleted now content).id = id := by
            have h := findContent_id w.store id content hfound
            simpa [softDeleted] using h
          exact find?_map_replace w.store.contents id content _ hid hfound
        · rw [hok.2]
          simp [List.mem_filter]

/-- C6 witness: the author deletes the sample item; the row survives as
deleted and id 1 leaves the search index. -/
theorem deleteContent_soft_and_search_witness :
    findContent sampleWorld.store 1 = some sampleItem ∧
    (deleteContent sampleWorld noFaults sampleAuthor 1 6).2.isSuccess = true ∧
    ((∃ c, findContent (deleteContent sampleWorld noFaults sampleAuthor 1 6).1.store 1 = some c ∧
        c.status = .deleted ∧ c.deletedAt ≠ none) ∧
      1 ∉ (deleteContent sampleWorld noFaults sampleAuthor 1 6).1.search) :=
  ⟨rfl, rfl,
    deleteContent_soft_and_search sampleWorld noFaults sampleAuthor 1 6 sampleItem rfl rfl⟩

/-- C9: publish performs no existence or ownership check: its outcome is
never the 403 forbidden error for any caller, and on a missing id it is the
generic 500 `Failed to publish content` failure rather than a 404. -/
theorem publishContent_no_auth_check
    (w : World) (f : Faults) (u : User) (id : Nat) (now : Nat) :
    (publishContent w f u id now).2.statusCode ≠ 403 ∧
    (findContent w.store id = none →
      (publishContent w f u id now).2 = .failure "Failed to publish content" 500) := by
  constructor
  · rcases hf : findContent w.store id with _ | existing
    · unfold publishContent
      rw [hf]
      simp [Result.statusCode]
    · rw [publishContent_found w f u id now existing hf]
      unfold publishContentFound
      cases f.notifyThrows <;> cases f.cacheThrows <;> simp [Result.statusCode]
  · intro hnone
    unfold publishContent
    rw [hnone]

/-- C9 witness: publishing a missing id (99) yields the generic 500, and a
non-author caller publishing the sample item never sees a 403. -/
theorem publishContent_no_auth_check_witness :
    (publishContent sampleWorld noFaults sampleAuthor 99 4).2 =
      .failure "Failed to publish content" 500 ∧
    (publishContent sampleWorld noFaults sampleStranger 1 4).2.statusCode ≠ 403 :=
  ⟨(publishContent_no_auth_check sampleWorld noFaults sampleAuthor 99 4).2 rfl,
    (publishContent_no_auth_check sampleWorld noFaults sampleStranger 1 4).1⟩

/-- C7: both the list and the search envelopes carry the same
page/limit/total/pages shape, and `pages` equals the ceiling of
`total / limit` for every positive limit — in particular zero pages when the
total is zero. -/
theorem pagination_pages_ceil
    (w : World) (q : ListQuery) (r : SearchResults) (page limit : Nat)
    (hq : 0 < q.limit) (hl : 0 < limit) :
    ((getAllContent w q).pagination.page = q.page ∧
      (getAllContent w q).pagination.limit = q.limit ∧
      (getAllContent w q).pagination.pages =
        (getAllContent w q).pagination.total ⌈/⌉ q.limit ∧
      ((getAllContent w q).pagination.total = 0 →
        (getAllContent w q).pagination.pages = 0)) ∧
    ((searchContent r page limit).pagination.page = page ∧
      (searchContent r page limit).pagination.limit = limit ∧
      (searchContent r page limit).pagination.total = r.total ∧
      (searchContent r page limit).pagination.pages = r.total ⌈/⌉ limit ∧
      (r.total = 0 → (searchContent r page limit).pagination.pages = 0)) := by
  constructor
  · refine ⟨rfl, rfl, pagesOf_eq_ceilDiv _ _ hq, ?_⟩
    intro h0
    show pagesOf (w.store.contents.filter (matchesWhere q)).length q.limit = 0
    have hz : (w.store.contents.filter (matchesWhere q)).length = 0 := h0
    rw [hz]
    exact pagesOf_zero _ hq
  · refine ⟨rfl, rfl, rfl, pagesOf_eq_ceilDiv _ _ hl, ?_⟩
    intro h0
    show pagesOf r.total limit = 0
    rw [h0]
    exact pagesOf_zero _ hl

/-- C7 witness: a five-row total with limit 2 paginates to 3 pages on both
paths. -/
theorem pagination_pages_ceil_witness :
    0 < (ListQuery.mk 1 2 none none none none).limit ∧ 0 < 2 ∧
    (getAllContent sampleWorld (ListQuery.mk 1 2 none none none none)).pagination.pages =
      (getAllContent sampleWorld (ListQuery.mk 1 2 none none none none)).pagination.total ⌈/⌉ 2 ∧
    (searchContent (SearchResults.mk [3, 4, 5] 5) 1 2).pagination.pages = 5 ⌈/⌉ 2 ∧
    (searchContent (SearchResults.mk [3, 4, 5] 5) 1 2).pagination.pages = 3 :=
  ⟨by decide, by decide,
    ((pagination_pages_ceil sampleWorld (ListQuery.mk 1 2 none none none none)
      (SearchResults.mk [3, 4, 5] 5) 1 2 (by decide) (by decide)).1.2.2.1),
    ((pagination_pages_ceil sampleWorld (ListQuery.mk 1 2 none none none none)
      (SearchResults.mk [3, 4, 5] 5) 1 2 (by decide) (by decide)).2.2.2.2.1),
    by
      show pagesOf 5 2 = 3
      rw [pagesOf_eq_ceilDiv 5 2 (by decide), Nat.ceilDiv_eq_add_pred_div]⟩

/-- C1 counterexample: with only the search-index client throwing during an
authorized update of the sample item, the primary-store write commits (the
stored version becomes 4) and yet the operation does not return success to
the caller — it answers the generic 500 failure. -/
theorem update_searchFailure_fails_request :
    (updateContent sampleWorld searchFault sampleAuthor 1 sampleInput 9).2 =
      .failure "Failed to update content" 500 ∧
    (updateContent sampleWorld searchFault sampleAuthor 1 sampleInput 9).2.isSuccess = false ∧
    ((updateContent sampleWorld searchFault sampleAuthor 1 sampleInput 9).1.store.contents.map
      (fun c => c.version)) = [4] :=
  ⟨rfl, rfl, rfl⟩

/-- C1 amended: only the fire-and-forget analysis dispatch is best-effort —
its failure is merely logged and the operation still succeeds; but a failure
thrown by the awaited search-index sync or cache invalidation during
Create/Update/Delete, or by the notification dispatch or cache invalidation
during Publish, makes the operation return the generic 500 failure to the
caller even though the primary-store write has already committed. -/
theorem mutation_sideEffect_failure_semantics
    (w : World) (u : User) (id : Nat) (input : ContentInput) (now : Nat)
    (existing : ContentItem)
    (hfound : findContent w.store id = some existing)
    (hauth : ¬(existing.authorId ≠ u.id ∧ u.role ≠ "admin")) :
    ((updateContent w mlFault u id input now).2.isSuccess = true ∧
      "error: analyzing content" ∈ (updateContent w mlFault u id input now).1.log) ∧
    (∀ f : Faults, f.searchThrows = true →
      (updateContent w f u id input now).2 = .failure "Failed to update content" 500 ∧
      ∃ c, findContent (updateContent w f u id input now).1.store id = some c ∧
        c.version = existing.version + 1) ∧
    (∀ f : Faults, f.searchThrows = false → f.cacheThrows = true →
      (updateContent w f u id input now).2 = .failure "Failed to update content" 500) ∧
    ((createContent w mlFault u input now).2.isSuccess = true ∧
      "error: analyzing content" ∈ (createContent w mlFault u input now).1.log) ∧
    (∀ f : Faults, f.searchThrows = true →
      (createContent w f u input now).2 = .failure "Failed to create content" 500 ∧
      (createContent w f u input now).1.store.contents.length =
        w.store.contents.length + 1) ∧
    (∀ f : Faults, f.searchThrows = false → f.cacheThrows = true →
      (createContent w f u input now).2 = .failure "Failed to create content" 500) ∧
    (∀ f : Faults, f.searchThrows = true →
      (deleteContent w f u id now).2 = .failure "Failed to delete content" 500 ∧
      ∃ c, findContent (deleteContent w f u id now).1.store id = some c ∧
        c.status = .deleted) ∧
    (∀ f : Faults, f.searchThrows = false → f.cacheThrows = true →
      (deleteContent w f u id now).2 = .failure "Failed to delete content" 500 ∧
      ∃ c, findContent (deleteContent w f u id now).1.store id = some c ∧
        c.status = .deleted) ∧
    (∀ f : Faults, f.notifyThrows = true →
      (publishContent w f u id now).2 = .failure "Failed to publish content" 500 ∧
      ∃ c, findContent (publishContent w f u id now).1.store id = some c ∧
        c.status = .published) ∧
    (∀ f : Faults, f.notifyThrows = false → f.cacheThrows = true →
      (publishContent w f u id now).2 = .failure "Failed to publish content" 500 ∧
      ∃ c, findContent (publishContent w f u id now).1.store id = some c ∧
        c.status = .published) := by
  have hidex := findContent_id w.store id existing hfound
  have hdelRow : ∀ f : Faults,
      findContent (deleteContentFound w f u id now existing).1.store id =
        some (softDeleted now existing) := by
    intro f
    show (deleteContentFound w f u id now existing).1.store.contents.find?
        (fun x => x.id == id) = some (softDeleted now existing)
    rw [deleteContentFound_contents w f u id now existing hauth]
    have hid : (softDeleted now existing).id = id := by
      simpa [softDeleted] using hidex
    exact find?_map_replace w.store.contents id existing _ hid hfound
  have hpubRow : ∀ f : Faults,
      findContent (publishContentFound w f id now existing).1.store id =
        some (publishedItem now existing) := by
    intro f
    show (publishContentFound w f id now existing).1.store.contents.find?
        (fun x => x.id == id) = some (publishedItem now existing)
    rw [publishContentFound_contents w f id now existing]
    have hid : (publishedItem now existing).id = id := by
      simpa [publishedItem] using hidex
    exact find?_map_replace w.store.contents id existing _ hid hfound
  refine ⟨⟨?_, ?_⟩, ?_, ?_, ⟨?_, ?_⟩, ?_, ?_, ?_, ?_, ?_, ?_⟩
  · rw [updateContent_found w mlFault u id input now existing hfound,
      updateContentFound_result_ok w mlFault u id input now existing hauth rfl rfl]
    rfl
  · rw [updateContent_found w mlFault u id input now existing hfound,
      updateContentFound_log_ml w mlFault u id input now existing hauth rfl rfl rfl]
    simp
  · intro f hs
    rw [updateContent_found w f u id input now existing hfound]
    refine ⟨updateContentFound_result_search w f u id input now existing hauth hs, ?_⟩
    rw [updateContentFound_store w f u id input now existing hauth]
    refine ⟨applyUpdate input now existing, ?_, rfl⟩
    have hid : (applyUpdate input now existing).id = id := by
      simpa [applyUpdate] using hidex
    exact find?_map_replace w.store.contents id existing _ hid hfound
  · intro f hs hc
    rw [updateContent_found w f u id input now existing hfound]
    exact updateContentFound_result_cache w f u id input now existing hauth hs hc
  · rw [createContent_result_ok w mlFault u input now rfl rfl]
    rfl
  · rw [createContent_log_ml w mlFault u input now rfl rfl rfl]
    simp
  · intro f hs
    refine ⟨createContent_result_search w f u input now hs, ?_⟩
    rw [createContent_store w f u input now]
    simp
  · intro f hs hc
    exact createContent_result_cache w f u input now hs hc
  · intro f hs
    rw [deleteContent_found w f u id now existing hfound]
    exact ⟨deleteContentFound_result_search w f u id now existing hauth hs,
      softDeleted now existing, hdelRow f, rfl⟩
  · intro f hs hc
    rw [deleteContent_found w f u id now existing hfound]
    exact ⟨deleteContentFound_result_cache w f u id now existing hauth hs hc,
      softDeleted now existing, hdelRow f, rfl⟩
  · intro f hn
    rw [publishContent_found w f u id now existing hfound]
    exact ⟨publishContentFound_result_notify w f id now existing hn,
      publishedItem now existing, hpubRow f, rfl⟩
  · intro f hn hc
    rw [publishContent_found w f u id now existing hfound]
    exact ⟨publishContentFound_result_cache w f id now existing hn hc,
      publishedItem now existing, hpubRow f, rfl⟩

/-- C1 amended witness: at the sample world the ML-only fault leaves the
update successful, while the search fault turns it into the generic 500. -/
theorem mutation_sideEffect_failure_semantics_witness :
    (updateContent sampleWorld mlFault sampleAuthor 1 sampleInput 9).2.isSuccess = true ∧
    (updateContent sampleWorld searchFault sampleAuthor 1 sampleInput 9).2 =
      .failure "Failed to update content" 500 :=
  ⟨(mutation_sideEffect_failure_semantics sampleWorld sampleAuthor 1 sampleInput 9
      sampleItem rfl (by decide)).1.1,
    ((mutation_sideEffect_failure_semantics sampleWorld sampleAuthor 1 sampleInput 9
      sampleItem rfl (by decide)).2.1 searchFault rfl).1⟩
